import Mathlib

/-!
# Verification of the exceltools address codec and validator

A shallow embedding of `src/exceltools.py`: the column-letter codec
(`col2num` / `num2col`), the cell and range validators
(`_validate_column`, `_validate_row`, `_validate_cellref`,
`_validate_range`), and the date conversion (`excel_date`).

Python strings are embedded as `List Char`, Python `int` as `Int`
(arbitrary precision, as in Python), Python `None`-or-value arguments as
`Option` or an explicit `PyArg` sum.  Fallible Python code (code that can
raise) is embedded as `Except PyErr`, where `PyErr` records only the kind
of exception raised, mirroring the exception classes of the source.
Python `//` and `%` are floor division; every division in the source has
the positive literal divisor 26 or 86400 and (on the reached branch) a
nonnegative dividend, where Lean's `Int` `/` (Euclidean) coincides with
Python's floor division.
-/

namespace Exceltools

/-- The kind of Python exception raised, matching the source's exception
classes (`ValueError`, `TypeError`, `AttributeError`, `IndexError`,
`InvalidCellRefError`, `InvalidRangeError`). -/
inductive PyErr where
  | valueError
  | typeError
  | attributeError
  | indexError
  | invalidCellRefError
  | invalidRangeError
deriving DecidableEq, Repr

/-- A Python argument that may be `None`, an `int`, or a `str`, as
accepted by `_validate_column` / `_validate_row`. -/
inductive PyArg where
  | none
  | int (n : Int)
  | str (s : List Char)
deriving DecidableEq, Repr

/-- `[a-zA-Z]` in the source's regexes. -/
def isAsciiLetter (c : Char) : Bool :=
  ('A' ≤ c && c ≤ 'Z') || ('a' ≤ c && c ≤ 'z')

/-- `\d` in the source's regexes. -/
def isAsciiDigit (c : Char) : Bool :=
  '0' ≤ c && c ≤ '9'

/-- `[a-zA-Z0-9]`, the class allowed by `_validate_column`'s
`re.search(r"[^a-zA-Z0-9]", col)` check. -/
def isAlnum (c : Char) : Bool :=
  isAsciiLetter c || isAsciiDigit c

/-- The loop of `col2num` (src/exceltools.py lines 39-43): iterate over the
reversed string, accumulating `col_num += (ord(char) - ord("A") + 1) * 26 ** expn`.
The first argument is the already-reversed character list. -/
def col2numLoop : List Char → Nat → Int → Int
  | [], _, acc => acc
  | ch :: rest, expn, acc =>
      col2numLoop rest (expn + 1) (acc + ((ch.toNat : Int) - 65 + 1) * (26 : Int) ^ expn)

/-- `col2num` (src/exceltools.py lines 32-44): convert an Excel column
string to an integer.  The source performs no validation on string
inputs (the `isinstance` check only rejects non-strings, which the Lean
type already excludes). -/
def col2num (s : List Char) : Int := col2numLoop s.reverse 0 0

/-- The `while col_int > 0` loop of `num2col` (src/exceltools.py lines
54-56): `col_int, remainder = divmod(col_int - 1, 26)`;
`col_str = chr(65 + remainder) + col_str`.  Python's `divmod` is floor
division; on the reached branch `col_int - 1 ≥ 0` so Lean's `/`/`%` on
`Int` agree with it. -/
def num2colLoop (colInt : Int) (colStr : List Char) : List Char :=
  if 0 < colInt then
    num2colLoop ((colInt - 1) / 26) (Char.ofNat (65 + ((colInt - 1) % 26).toNat) :: colStr)
  else colStr
termination_by colInt.toNat
decreasing_by
  have h2 : (colInt - 1) / 26 ≤ colInt - 1 := Int.ediv_le_self 26 (by omega)
  omega

/-- `num2col` (src/exceltools.py lines 46-57): convert an Excel column
index to a string.  No range validation is performed: the loop simply
does not run for `col_int ≤ 0` (returning `""`), and runs further for
inputs above 18278. -/
def num2col (n : Int) : List Char := num2colLoop n []

/-- Unfolding equation for `num2colLoop` (its recursion is well-founded,
so `rfl`-style evaluation does not apply). -/
theorem num2colLoop_eq (n : Int) (acc : List Char) :
    num2colLoop n acc =
      if 0 < n then
        num2colLoop ((n - 1) / 26) (Char.ofNat (65 + ((n - 1) % 26).toNat) :: acc)
      else acc := by
  rw [num2colLoop]

/-- `_validate_column` (src/exceltools.py lines 261-285): `None` passes
through; a string must be alphanumeric-only and at most 3 characters,
then is converted with `col2num`; any result (or integer input) above
18278 raises `ValueError`.  All failures in the source are `ValueError`s. -/
def validate_column (col : PyArg) : Except PyErr (Option Int) :=
  match col with
  | .none => .ok Option.none
  | .str s =>
      if s.any (fun ch => ! isAlnum ch) then .error .valueError
      else if 3 < s.length then .error .valueError
      else
        let n := col2num s
        if 18278 < n then .error .valueError else .ok (some n)
  | .int n => if 18278 < n then .error .valueError else .ok (some n)

/-- Value of a nonempty all-digit string under Python's `int()`. -/
def digitsVal (s : List Char) : Int :=
  s.foldl (fun a c => a * 10 + ((c.toNat : Int) - 48)) 0

/-- Python `int(s)` on a string: parses an optionally negated digit run,
raising `ValueError` otherwise (whitespace and `+` are not needed by any
call site modelled here). -/
def pyIntOfString (s : List Char) : Except PyErr Int :=
  if s ≠ [] ∧ s.all isAsciiDigit then .ok (digitsVal s)
  else
    match s with
    | '-' :: rest =>
        if rest ≠ [] ∧ rest.all isAsciiDigit then .ok (-(digitsVal rest))
        else .error .valueError
    | _ => .error .valueError

/-- Python `int(c)` on a single-character string. -/
def pyIntOfChar (c : Char) : Except PyErr Int :=
  if isAsciiDigit c then .ok ((c.toNat : Int) - 48) else .error .valueError

/-- `_validate_row` (src/exceltools.py lines 287-298): `None` passes
through, otherwise `int(row)` (identity on integers, parse on strings,
`ValueError` on failure). -/
def validate_row (row : PyArg) : Except PyErr (Option Int) :=
  match row with
  | .none => .ok Option.none
  | .int n => .ok (some n)
  | .str s => do
      let n ← pyIntOfString s
      .ok (some n)

/-- `self._cell_regex = re.compile(r"^[a-zA-Z]{1}\d+$")`
(src/exceltools.py line 151): one ASCII letter followed by one or more
digits, anchored at both ends. -/
def matchesCellRegex (s : List Char) : Bool :=
  match s with
  | c :: rest => isAsciiLetter c && ! rest.isEmpty && rest.all isAsciiDigit
  | [] => false

/-- Wrap an optional validated column back into the Python value shape
returned by `_validate_cellref`. -/
def pyArgOfOpt : Option Int → PyArg
  | some n => .int n
  | Option.none => .none

/-- `_validate_cellref` (src/exceltools.py lines 318-338).  Returns the
`(row, col)` pair the source returns: in the coordinate branch `row` is
the validated row and `col` the validated column; in the reference branch
the source executes `col, row = cellref[0], int(cellref[1])` — `col` is
the first *character* of the reference and `row` is `int` of the second
character only.  `cellref[...]` out of bounds is an `IndexError`, and
`int` of a non-digit character a `ValueError`, exactly as in Python. -/
def validate_cellref (cellref : Option (List Char)) (row col : PyArg) :
    Except PyErr (Option Int × PyArg) :=
  if row = .none ∧ col = .none ∧ cellref = Option.none then
    .error .invalidCellRefError
  else if row ≠ .none ∧ col ≠ .none ∧ cellref ≠ Option.none then
    .error .invalidCellRefError
  else if row = .none ∧ col = .none ∧ cellref ≠ Option.none ∧
      matchesCellRegex (cellref.getD []) = false then
    .error .invalidCellRefError
  else
    match cellref with
    | Option.none => do
        let r ← validate_row row
        let c ← validate_column col
        .ok (r, pyArgOfOpt c)
    | some [] => .error .indexError
    | some [_] => .error .indexError
    | some (c0 :: c1 :: _) => do
        let r ← pyIntOfChar c1
        .ok (some r, .str [c0])

/-- The result of `re.match(self._range_regex, s)`
(src/exceltools.py lines 149-150): either the bounded alternative
`(^[a-zA-Z]{1,3})(\d+):([a-zA-Z]{1,3})(\d+$)` with its four capture
groups, or the whole-column alternative `(^[a-zA-Z]{1,3}:[a-zA-Z]{1,3}$)`
(group 5). -/
inductive RangeMatch where
  | bounded (col1 row1 col2 row2 : List Char)
  | colsOnly (s : List Char)
deriving DecidableEq, Repr

/-- Match of the bounded alternative: because `{1,3}` is followed by a
mandatory digit and the digit runs are anchored by `:` and `$`, the
alternative matches exactly the strings of shape
letters(1-3) digits(1+) `:` letters(1-3) digits(1+), and the maximal
letter/digit runs give the capture groups. -/
def parseBoundedRange (s : List Char) :
    Option (List Char × List Char × List Char × List Char) :=
  let l1 := s.takeWhile isAsciiLetter
  let rest1 := s.dropWhile isAsciiLetter
  let d1 := rest1.takeWhile isAsciiDigit
  let rest2 := rest1.dropWhile isAsciiDigit
  if 1 ≤ l1.length ∧ l1.length ≤ 3 ∧ 1 ≤ d1.length then
    match rest2 with
    | ':' :: tail =>
        let l2 := tail.takeWhile isAsciiLetter
        let rest3 := tail.dropWhile isAsciiLetter
        let d2 := rest3.takeWhile isAsciiDigit
        let rest4 := rest3.dropWhile isAsciiDigit
        if 1 ≤ l2.length ∧ l2.length ≤ 3 ∧ 1 ≤ d2.length ∧ rest4 = [] then
          some (l1, d1, l2, d2)
        else Option.none
    | _ => Option.none
  else Option.none

/-- Match of the whole-column alternative `^[a-zA-Z]{1,3}:[a-zA-Z]{1,3}$`. -/
def isColsOnly (s : List Char) : Bool :=
  let l1 := s.takeWhile isAsciiLetter
  match s.dropWhile isAsciiLetter with
  | ':' :: tail =>
      decide (1 ≤ l1.length) && decide (l1.length ≤ 3) &&
      decide (1 ≤ tail.length) && decide (tail.length ≤ 3) &&
      tail.all isAsciiLetter
  | _ => false

/-- `re.match(self._range_regex, _range)`: the regex engine tries the
bounded alternative first, then the whole-column one; `none` models a
failed match (Python `None`). -/
def matchRangeRegex (s : List Char) : Option RangeMatch :=
  match parseBoundedRange s with
  | some (c1, r1, c2, r2) => some (.bounded c1 r1 c2 r2)
  | Option.none => if isColsOnly s then some (.colsOnly s) else Option.none

/-- Python `a > b` where either side may be `None`
(`startcol > endcol` at src/exceltools.py line 380): comparing `None`
with `>` raises `TypeError` in Python 3. -/
def pyGt : Option Int → Option Int → Except PyErr Bool
  | some a, some b => .ok (decide (b < a))
  | _, _ => .error .typeError

/-- Python `str(n)` for an integer (via Lean's decimal `toString`, which
agrees with Python's). -/
def intStr (n : Int) : List Char := (toString n).data

/-- The `_range is not None and all(coord is None ...)` branch of
`_validate_range` (src/exceltools.py lines 350-374).  The source
extracts `match.group(1)` .. `match.group(5)` *before* testing
`if match is None`, so a failed match raises `AttributeError`
(`'NoneType' object has no attribute 'group'`) and the
`InvalidRangeError` raise on line 359 is unreachable.  A whole-column
match returns the text unchanged with no ordering check; a bounded match
validates both columns and rows, then checks ordering. -/
def validateRangeText (rs : List Char) : Except PyErr (List Char) :=
  match matchRangeRegex rs with
  | Option.none => .error .attributeError
  | some (.colsOnly _) => .ok rs
  | some (.bounded c1 r1 c2 r2) => do
      let col1 ← validate_column (.str c1)
      let col2 ← validate_column (.str c2)
      let row1 ← validate_row (.str r1)
      let row2 ← validate_row (.str r2)
      let gc ← pyGt col1 col2
      if gc then .error .invalidRangeError
      else do
        let gr ← pyGt row1 row2
        if gr then .error .invalidRangeError
        else .ok rs

/-- The `else` branch of `_validate_range` (src/exceltools.py lines
375-386), taken when no range text is used for parsing: partial
coordinate sets and text+coordinates conflicts raise
`InvalidRangeError`; the ordering comparisons use Python `>` directly on
the (possibly `None`) validated coordinates, so an all-`None` call
reaches `startcol > endcol` and raises `TypeError`; otherwise the range
is re-serialized as `num2col(startcol) + str(startrow) + ":" +
num2col(endcol) + str(endrow)`. -/
def validateRangeElse (r : Option (List Char)) (sr er sc ec : Option Int) :
    Except PyErr (List Char) :=
  let coords := [sr, er, sc, ec]
  if coords.any Option.isSome ∧ coords.any Option.isNone then
    .error .invalidRangeError
  else if coords.all Option.isSome ∧ r.isSome then
    .error .invalidRangeError
  else do
    let gc ← pyGt sc ec
    if gc then .error .invalidRangeError
    else do
      let gr ← pyGt sr er
      if gr then .error .invalidRangeError
      else
        match sc, sr, ec, er with
        | some c1, some r1, some c2, some r2 =>
            .ok (num2col c1 ++ intStr r1 ++ ':' :: (num2col c2 ++ intStr r2))
        | _, _, _, _ =>
            -- unreachable: `pyGt` succeeded, so all four are `some`;
            -- Python would raise `TypeError` inside `num2col(None)` here
            .error .typeError

/-- `_validate_range` (src/exceltools.py lines 340-386): columns are
validated first, then rows (lines 346-347), then either the text branch
or the discrete-coordinates branch runs. -/
def validate_range (r : Option (List Char)) (startrow endrow startcol endcol : PyArg) :
    Except PyErr (List Char) := do
  let sc ← validate_column startcol
  let ec ← validate_column endcol
  let sr ← validate_row startrow
  let er ← validate_row endrow
  match r with
  | some rs =>
      if sr = Option.none ∧ er = Option.none ∧ sc = Option.none ∧ ec = Option.none then
        validateRangeText rs
      else validateRangeElse (some rs) sr er sc ec
  | Option.none => validateRangeElse Option.none sr er sc ec

/-- CPython's `_DAYS_BEFORE_MONTH` table (cumulative days before each
month in a non-leap year; index 0 is a `-1` placeholder), the basis of
`datetime.date.toordinal`, which defines the subtraction used by
`excel_date`. -/
def daysBeforeMonthTable : List Int :=
  [-1, 0, 31, 59, 90, 120, 151, 181, 212, 243, 273, 304, 334]

/-- CPython's `_is_leap(year)`. -/
def isLeap (y : Int) : Bool :=
  y % 4 == 0 && (y % 100 != 0 || y % 400 == 0)

/-- CPython's `_days_before_year(year)`: days before January 1st of
`year`, counting from ordinal day 1 = 0001-01-01. -/
def daysBeforeYear (y : Int) : Int :=
  (y - 1) * 365 + (y - 1) / 4 - (y - 1) / 100 + (y - 1) / 400

/-- CPython's `_days_before_month(year, month)`. -/
def daysBeforeMonth (y : Int) (m : Nat) : Int :=
  daysBeforeMonthTable.getD m 0 + (if 2 < m then (if isLeap y then 1 else 0) else 0)

/-- CPython's `date.toordinal()` (`_ymd2ord`): proleptic Gregorian
ordinal of the date, with 0001-01-01 as day 1. -/
def toordinal (y : Int) (m d : Nat) : Int :=
  daysBeforeYear y + daysBeforeMonth y m + (d : Int)

/-- A `datetime.datetime` value (microseconds omitted: no call site
modelled here uses them). -/
structure PyDatetime where
  year : Int
  month : Nat
  day : Nat
  hour : Int
  minute : Int
  second : Int
deriving DecidableEq, Repr

/-- `datetime.datetime` subtraction: a `timedelta` normalized so that
`0 ≤ seconds < 86400` (`days` carries the sign).  Python's `divmod` is
floor division, which Lean's `/`/`%` on `Int` match for the positive
divisor 86400. -/
def datetimeSub (a b : PyDatetime) : Int × Int :=
  let secs := (toordinal a.year a.month a.day - toordinal b.year b.month b.day) * 86400
    + (a.hour - b.hour) * 3600 + (a.minute - b.minute) * 60 + (a.second - b.second)
  (secs / 86400, secs % 86400)

/-- `temp = dt.datetime(1899, 12, 30)` (src/exceltools.py line 79):
Excel's epoch — the 30th, not the 31st. -/
def excelEpoch : PyDatetime := ⟨1899, 12, 30, 0, 0, 0⟩

/-- The scalar input shapes accepted by `excel_date`: a `datetime.date`
(no time component) or a `datetime.datetime`. -/
inductive PyDateLike where
  | date (y : Int) (m d : Nat)
  | datetime (v : PyDatetime)
deriving DecidableEq, Repr

/-- The delta computation of `excel_date` (src/exceltools.py lines
79-81), applied to the (already combined) datetime:
`delta = date1 - temp; return float(delta.days) + (float(delta.seconds) / 86400)`,
embedded over `ℚ` (every value reached in the verified facts is exactly
representable, so the embedding is exact). -/
def excel_date_datetime (v : PyDatetime) : ℚ :=
  let delta := datetimeSub v excelEpoch
  (delta.1 : ℚ) + (delta.2 : ℚ) / 86400

/-- `excel_date` (src/exceltools.py lines 72-87) on a scalar date or
datetime.  The inner guard is `if isinstance(date1, dt.date):`, and in
Python `datetime.datetime` is a *subclass* of `datetime.date`, so this
branch fires for every scalar input — bare dates and datetimes alike.
`dt.datetime.combine(date1, dt.datetime.min.time())` ignores the time
components of a datetime passed as its date argument (documented CPython
behaviour), so every scalar input is truncated to midnight of its
calendar day before the delta computation runs. -/
def excel_date : PyDateLike → ℚ
  | .date y m d => excel_date_datetime ⟨y, m, d, 0, 0, 0⟩
  | .datetime v => excel_date_datetime ⟨v.year, v.month, v.day, 0, 0, 0⟩

/-- Python `str.upper()` restricted to ASCII, as applied to column
letter strings (used to state the spec's round-trip claim). -/
def pyUpper (s : List Char) : List Char :=
  s.map (fun ch => if 'a' ≤ ch ∧ ch ≤ 'z' then Char.ofNat (ch.toNat - 32) else ch)

/-- The spec's column-letters grammar `^[a-zA-Z]{1,3}$` (spec §6),
used to state the round-trip claims. -/
def matchesColLetters (s : List Char) : Bool :=
  decide (1 ≤ s.length) && decide (s.length ≤ 3) && s.all isAsciiLetter

/-! ## Helper lemmas -/

/-- The order on `Char` is the order on code points. -/
theorem char_le_iff_toNat (a b : Char) : a ≤ b ↔ a.toNat ≤ b.toNat := by
  rw [Char.le_def, UInt32.le_def]
  simp [UInt32.toNat, BitVec.le_def]
  rfl

/-- `Char.ofNat` is a left inverse of `Char.toNat` below the surrogate
range. -/
theorem charToNat_ofNat (n : Nat) (h : n < 55296) : (Char.ofNat n).toNat = n := by
  have hv : n.isValidChar := Or.inl h
  simp only [Char.ofNat, hv, Char.ofNatAux, Char.toNat, dif_pos]
  rfl

/-- Shifting the exponent and accumulator out of `col2numLoop`. -/
theorem col2numLoop_shift (l : List Char) : ∀ (e : Nat) (a : Int),
    col2numLoop l e a = a + 26 ^ e * col2numLoop l 0 0 := by
  induction l with
  | nil => intro e a; simp [col2numLoop]
  | cons c rest ih =>
      intro e a
      show col2numLoop rest (e + 1) (a + ((c.toNat : Int) - 65 + 1) * 26 ^ e)
          = a + 26 ^ e * col2numLoop (c :: rest) 0 0
      have h2 : col2numLoop (c :: rest) 0 0
          = col2numLoop rest 1 (0 + ((c.toNat : Int) - 65 + 1) * 26 ^ 0) := rfl
      rw [ih (e + 1), h2, ih 1]
      ring

/-- Appending one (least-significant) letter multiplies the column value
by 26 and adds the letter's rank. -/
theorem col2num_append_singleton (l : List Char) (c : Char) :
    col2num (l ++ [c]) = 26 * col2num l + ((c.toNat : Int) - 64) := by
  have h1 : (l ++ [c]).reverse = c :: l.reverse := by simp
  unfold col2num
  rw [h1]
  show col2numLoop l.reverse 1 (0 + ((c.toNat : Int) - 65 + 1) * 26 ^ 0) = _
  rw [col2numLoop_shift]
  ring

/-- The accumulator of `num2colLoop` is just appended to the digits the
loop produces (bounded-index form for induction). -/
theorem num2colLoop_append_aux : ∀ (k : Nat) (n : Int), n.toNat ≤ k →
    ∀ acc, num2colLoop n acc = num2colLoop n [] ++ acc := by
  intro k
  induction k with
  | zero =>
      intro n hn acc
      have h : ¬ 0 < n := by omega
      rw [num2colLoop_eq n acc, num2colLoop_eq n [], if_neg h, if_neg h]
      simp
  | succ k ih =>
      intro n hn acc
      by_cases h : 0 < n
      · have h2 : (n - 1) / 26 ≤ n - 1 := Int.ediv_le_self 26 (by omega)
        have hq : ((n - 1) / 26).toNat ≤ k := by omega
        rw [num2colLoop_eq n acc, num2colLoop_eq n [], if_pos h, if_pos h]
        rw [ih _ hq (Char.ofNat (65 + ((n - 1) % 26).toNat) :: acc),
          ih _ hq [Char.ofNat (65 + ((n - 1) % 26).toNat)]]
        simp
      · rw [num2colLoop_eq n acc, num2colLoop_eq n [], if_neg h, if_neg h]
        simp

/-- The accumulator of `num2colLoop` is just appended to the digits. -/
theorem num2colLoop_append (n : Int) (acc : List Char) :
    num2colLoop n acc = num2colLoop n [] ++ acc :=
  num2colLoop_append_aux n.toNat n le_rfl acc

/-- Core of claim C1 (bounded-index form for induction):
`col2num (num2col n) = n` for every nonnegative `n`. -/
theorem col2num_num2col_aux : ∀ (k : Nat) (n : Int), n.toNat ≤ k → 0 ≤ n →
    col2num (num2col n) = n := by
  intro k
  induction k with
  | zero =>
      intro n h1 h2
      have h : n = 0 := by omega
      subst h
      rw [num2col, num2colLoop_eq, if_neg (by norm_num)]
      rfl
  | succ k ih =>
      intro n h1 h2
      by_cases h : 0 < n
      · have h2' : (0 : Int) ≤ (n - 1) / 26 := Int.ediv_nonneg (by omega) (by norm_num)
        have h3 : (n - 1) / 26 ≤ n - 1 := Int.ediv_le_self 26 (by omega)
        have hq : ((n - 1) / 26).toNat ≤ k := by omega
        have hmod1 : (0 : Int) ≤ (n - 1) % 26 := Int.emod_nonneg _ (by norm_num)
        have hmod2 : (n - 1) % 26 < 26 := Int.emod_lt_of_pos _ (by norm_num)
        rw [num2col, num2colLoop_eq, if_pos h, num2colLoop_append,
          col2num_append_singleton]
        have ihq := ih _ hq h2'
        rw [num2col] at ihq
        rw [ihq]
        have hchar : (Char.ofNat (65 + ((n - 1) % 26).toNat)).toNat
            = 65 + ((n - 1) % 26).toNat := charToNat_ofNat _ (by omega)
        rw [hchar]
        omega
      · have h0 : n = 0 := by omega
        subst h0
        rw [num2col, num2colLoop_eq, if_neg (by norm_num)]
        rfl

/-- `col2num (num2col n) = n` for every nonnegative `n`. -/
theorem col2num_num2col (n : Int) (h : 0 ≤ n) : col2num (num2col n) = n :=
  col2num_num2col_aux n.toNat n le_rfl h

/-- An all-uppercase letter list has a positive column value after any
append, and a nonnegative one in general. -/
theorem col2num_nonneg (l : List Char) (h : ∀ c ∈ l, 65 ≤ c.toNat ∧ c.toNat ≤ 90) :
    0 ≤ col2num l := by
  induction l using List.reverseRecOn with
  | nil => norm_num [col2num, col2numLoop]
  | append_singleton l c ih =>
      have hc := h c (by simp)
      have hl : 0 ≤ col2num l := ih (fun c' hc' => h c' (by simp [hc']))
      rw [col2num_append_singleton]
      omega

/-- Core of claim C6: `num2col (col2num s) = s` for every string of
uppercase ASCII letters. -/
theorem num2col_col2num_of_upper (s : List Char)
    (h : ∀ c ∈ s, 65 ≤ c.toNat ∧ c.toNat ≤ 90) :
    num2col (col2num s) = s := by
  induction s using List.reverseRecOn with
  | nil =>
      rw [show col2num [] = 0 from rfl, num2col, num2colLoop_eq, if_neg (by norm_num)]
  | append_singleton l c ih =>
      have hc := h c (by simp)
      have hl : ∀ c' ∈ l, 65 ≤ c'.toNat ∧ c'.toNat ≤ 90 :=
        fun c' hc' => h c' (by simp [hc'])
      have hm : 0 ≤ col2num l := col2num_nonneg l hl
      rw [col2num_append_singleton]
      have hpos : 0 < 26 * col2num l + ((c.toNat : Int) - 64) := by omega
      rw [num2col, num2colLoop_eq, if_pos hpos]
      have hdiv : (26 * col2num l + ((c.toNat : Int) - 64) - 1) / 26 = col2num l := by
        omega
      have hmod : (26 * col2num l + ((c.toNat : Int) - 64) - 1) % 26
          = (c.toNat : Int) - 65 := by omega
      rw [hdiv, hmod]
      have hc2 : ((c.toNat : Int) - 65).toNat = c.toNat - 65 := by omega
      rw [hc2]
      have hchar : 65 + (c.toNat - 65) = c.toNat := by omega
      rw [hchar, Char.ofNat_toNat, num2colLoop_append]
      rw [show num2colLoop (col2num l) [] = num2col (col2num l) from rfl, ih hl]

/-- `num2col 1 = "A"` (derived through the inverse, since `num2colLoop`
is well-founded and does not evaluate by `rfl`). -/
theorem num2col_one : num2col 1 = ['A'] := by
  have h := num2col_col2num_of_upper ['A'] (by decide)
  rwa [show col2num ['A'] = 1 from by decide] at h

/-- `num2col 2 = "B"`. -/
theorem num2col_two : num2col 2 = ['B'] := by
  have h := num2col_col2num_of_upper ['B'] (by decide)
  rwa [show col2num ['B'] = 2 from by decide] at h

/-- `num2col 33 = "AG"`: 33 is what `col2num` returns for the lowercase
string `"a"`. -/
theorem num2col_thirtythree : num2col 33 = ['A', 'G'] := by
  have h := num2col_col2num_of_upper ['A', 'G'] (by decide)
  rwa [show col2num ['A', 'G'] = 33 from by decide] at h

/-- `num2col 18279 = "AAAA"`: one past the documented maximum 18278. -/
theorem num2col_past_max : num2col 18279 = ['A', 'A', 'A', 'A'] := by
  have h := num2col_col2num_of_upper ['A', 'A', 'A', 'A'] (by decide)
  rwa [show col2num ['A', 'A', 'A', 'A'] = 18279 from by decide] at h

/-! ## Claims -/

/-- C1: for every integer `n` with `1 ≤ n ≤ 18278`, converting `n` to
column letters with `num2col` and back with `col2num` yields exactly
`n`: the two conversions are mutual inverses over 1..18278. -/
theorem C1_col2num_num2col_round_trip (n : Int) (h1 : 1 ≤ n) (h2 : n ≤ 18278) :
    col2num (num2col n) = n :=
  col2num_num2col n (by omega)

/-- Witness for C1 at `n = 703` (the column `"AAA"`). -/
theorem C1_col2num_num2col_round_trip_witness : col2num (num2col 703) = 703 :=
  C1_col2num_num2col_round_trip 703 (by norm_num) (by norm_num)

/-- C2 (code bug evaluation): `"B15"` matches the strict cell grammar
`^[a-zA-Z]{1}\d+$`, yet `_validate_cellref` returns row `1` — `int` of
the second character only (`int(cellref[1])`) — not the full number 15.
On single-digit references such as `"B5"` the slip is invisible. -/
theorem C2_cellref_row_digit_truncated :
    matchesCellRegex ['B', '1', '5'] = true ∧
    validate_cellref (some ['B', '1', '5']) .none .none = .ok (some 1, .str ['B']) ∧
    validate_cellref (some ['B', '5']) .none .none = .ok (some 5, .str ['B']) :=
  ⟨rfl, rfl, rfl⟩

/-- C3 (code bug evaluation): when the range text matches neither range
grammar, `_validate_range` raises `AttributeError` (it calls
`match.group(1)` before testing `if match is None`), not the documented
`InvalidRangeError`. -/
theorem C3_malformed_range_attribute_error :
    (∀ s, matchRangeRegex s = Option.none →
      validate_range (some s) .none .none .none .none = .error .attributeError) ∧
    validate_range (some ['A', '1']) .none .none .none .none = .error .attributeError ∧
    PyErr.attributeError ≠ PyErr.invalidRangeError := by
  refine ⟨?_, rfl, by decide⟩
  intro s hs
  show validateRangeText s = .error .attributeError
  rw [validateRangeText, hs]

/-- Witness for C3's universally quantified part at the malformed range
text `"zzzz9"`. -/
theorem C3_malformed_range_attribute_error_witness :
    validate_range (some ['z', 'z', 'z', 'z', '9']) .none .none .none .none
      = .error .attributeError :=
  C3_malformed_range_attribute_error.1 ['z', 'z', 'z', 'z', '9'] rfl

/-- C4 counterexample: the claim says `col2num ""` fails with an
`InvalidColumnError`-kind error; instead `col2num` returns the number 0
for `""`, and even the validator `_validate_column` accepts `""`
(returning 0). -/
theorem C4_counterexample :
    col2num [] = 0 ∧ validate_column (.str []) = .ok (some 0) :=
  ⟨rfl, rfl⟩

/-- C4 amended: `col2num` performs no validation on string content: it
returns 0 for `""`, 11 for `"A1"` and 475254 for `"ZZZZ"` (only a
non-string argument raises, a `ValueError`).  The separate validator
`_validate_column` rejects `"ZZZZ"` — as more than 3 characters, with a
`ValueError`, not an `InvalidColumnError` kind — but accepts `""` and
`"A1"`. -/
theorem C4_no_column_string_validation :
    col2num [] = 0 ∧
    col2num ['A', '1'] = 11 ∧
    col2num ['Z', 'Z', 'Z', 'Z'] = 475254 ∧
    validate_column (.str []) = .ok (some 0) ∧
    validate_column (.str ['A', '1']) = .ok (some 11) ∧
    validate_column (.str ['Z', 'Z', 'Z', 'Z']) = .error .valueError :=
  ⟨rfl, by decide, by decide, rfl, rfl, rfl⟩

/-- C5 counterexample: the claim says `num2col 0` fails with an
`InvalidColumnError`-kind error; instead the loop body never runs and
`num2col 0` returns the empty string. -/
theorem C5_counterexample : num2col 0 = [] := by
  rw [num2col, num2colLoop_eq, if_neg (by norm_num)]

/-- C5 amended: `num2col` performs no range validation on integers: for
every `n < 1` it returns `""` (the loop body never runs), and for
`n > 18278` it keeps going and returns a longer letter string
(`num2col 18279 = "AAAA"`); only a non-integer argument raises, a
`ValueError`. -/
theorem C5_no_column_index_validation :
    (∀ n : Int, n < 1 → num2col n = []) ∧
    num2col 18279 = ['A', 'A', 'A', 'A'] := by
  refine ⟨?_, num2col_past_max⟩
  intro n hn
  rw [num2col, num2colLoop_eq, if_neg (by omega)]

/-- Witness for C5's universally quantified part at `n = -7`. -/
theorem C5_no_column_index_validation_witness : num2col (-7) = [] :=
  C5_no_column_index_validation.1 (-7) (by norm_num)

/-- C6 counterexample: `"a"` matches the column grammar
`^[a-zA-Z]{1,3}$` and `"a".upper() = "A"`, but
`num2col (col2num "a") = "AG"`: `col2num` ranks `'a'` as
`ord('a') - ord('A') + 1 = 33`, so lowercase input breaks the claimed
round trip. -/
theorem C6_counterexample :
    matchesColLetters ['a'] = true ∧
    num2col (col2num ['a']) = ['A', 'G'] ∧
    pyUpper ['a'] = ['A'] ∧
    (['A', 'G'] : List Char) ≠ ['A'] := by
  refine ⟨rfl, ?_, by decide, by decide⟩
  rw [show col2num ['a'] = 33 from by decide, num2col_thirtythree]

/-- C6 amended: the round trip `num2col (col2num s) = s.upper()` holds
exactly on the uppercase strings of the grammar: for every `s` of 1-3
ASCII letters that are all uppercase, `num2col (col2num s) = pyUpper s`
(`= s`).  Lowercase letters are not normalized by `col2num`. -/
theorem C6_round_trip_upper (s : List Char)
    (_h1 : matchesColLetters s = true)
    (h2 : ∀ c ∈ s, 'A' ≤ c ∧ c ≤ 'Z') :
    num2col (col2num s) = pyUpper s := by
  have hb : ∀ c ∈ s, 65 ≤ c.toNat ∧ c.toNat ≤ 90 := by
    intro c hc
    have h := h2 c hc
    constructor
    · exact (char_le_iff_toNat 'A' c).mp h.1
    · exact (char_le_iff_toNat c 'Z').mp h.2
  have hid : ∀ c ∈ s,
      (if 'a' ≤ c ∧ c ≤ 'z' then Char.ofNat (c.toNat - 32) else c) = c := by
    intro c hc
    have h := hb c hc
    rw [if_neg]
    intro hcon
    have := (char_le_iff_toNat 'a' c).mp hcon.1
    rw [show ('a' : Char).toNat = 97 from rfl] at this
    omega
  have hup : pyUpper s = s := by
    unfold pyUpper
    rw [List.map_congr_left hid]
    simp
  rw [hup]
  exact num2col_col2num_of_upper s hb

/-- Witness for C6 at `s = "AB"`. -/
theorem C6_round_trip_upper_witness :
    num2col (col2num ['A', 'B']) = pyUpper ['A', 'B'] :=
  C6_round_trip_upper ['A', 'B'] (by decide) (by decide)

/-- Discrete-coordinate success path of `_validate_range`: with all four
coordinates supplied as in-bounds integers in order, the canonical text
form is returned. -/
theorem validate_range_discrete_ok (sr er sc ec : Int)
    (h1 : sc ≤ 18278) (h2 : ec ≤ 18278) (h3 : sc ≤ ec) (h4 : sr ≤ er) :
    validate_range Option.none (.int sr) (.int er) (.int sc) (.int ec) =
      .ok (num2col sc ++ intStr sr ++ ':' :: (num2col ec ++ intStr er)) := by
  have hsc : ¬ 18278 < sc := by omega
  have hec : ¬ 18278 < ec := by omega
  have hgc : ¬ ec < sc := by omega
  have hgr : ¬ er < sr := by omega
  simp [validate_range, validate_column, validate_row, validateRangeElse, pyGt,
    Bind.bind, Except.bind, hsc, hec, hgc, hgr]

/-- Discrete-coordinate inverted-rectangle path of `_validate_range`:
an inverted rectangle raises `InvalidRangeError` (the column comparison
runs first). -/
theorem validate_range_discrete_inverted (sr er sc ec : Int)
    (h1 : sc ≤ 18278) (h2 : ec ≤ 18278) (h3 : ec < sc ∨ er < sr) :
    validate_range Option.none (.int sr) (.int er) (.int sc) (.int ec) =
      .error .invalidRangeError := by
  have hsc : ¬ 18278 < sc := by omega
  have hec : ¬ 18278 < ec := by omega
  by_cases hgc : ec < sc
  · simp [validate_range, validate_column, validate_row, validateRangeElse, pyGt,
      Bind.bind, Except.bind, hsc, hec, hgc]
  · have hgr : er < sr := by tauto
    simp [validate_range, validate_column, validate_row, validateRangeElse, pyGt,
      Bind.bind, Except.bind, hsc, hec, hgc, hgr]

/-- C7: built from discrete coordinates (no range text, all four of
startrow/endrow/startcol/endcol supplied), `_validate_range` returns the
canonical `<StartCol><StartRow>:<EndCol><EndRow>` text —
`resolveRangeRef(None, 1, 3, 1, 2) = "A1:B3"` — and every coordinate set
with end column before start column or end row before start row raises
`InvalidRangeError`: an inverted rectangle is never silently swapped. -/
theorem C7_discrete_range_canonical_and_inverted :
    validate_range Option.none (.int 1) (.int 3) (.int 1) (.int 2)
      = .ok ['A', '1', ':', 'B', '3'] ∧
    (∀ sr er sc ec : Int, sc ≤ 18278 → ec ≤ 18278 → sc ≤ ec → sr ≤ er →
      validate_range Option.none (.int sr) (.int er) (.int sc) (.int ec) =
        .ok (num2col sc ++ intStr sr ++ ':' :: (num2col ec ++ intStr er))) ∧
    (∀ sr er sc ec : Int, sc ≤ 18278 → ec ≤ 18278 → (ec < sc ∨ er < sr) →
      validate_range Option.none (.int sr) (.int er) (.int sc) (.int ec) =
        .error .invalidRangeError) := by
  refine ⟨?_, validate_range_discrete_ok, validate_range_discrete_inverted⟩
  rw [validate_range_discrete_ok 1 3 1 2 (by norm_num) (by norm_num) (by norm_num)
    (by norm_num), num2col_one, num2col_two]
  rfl

/-- Witness for C7 at the spec's own failing example
`resolveRangeRef(None, 3, 1, 1, 2)` (start row after end row). -/
theorem C7_discrete_range_canonical_and_inverted_witness :
    validate_range Option.none (.int 3) (.int 1) (.int 1) (.int 2)
      = .error .invalidRangeError :=
  C7_discrete_range_canonical_and_inverted.2.2 3 1 1 2 (by norm_num) (by norm_num)
    (Or.inr (by norm_num))

/-- C8: `_validate_cellref` raises `InvalidCellRefError` when the cell
reference and the full `(row, col)` pair are both supplied, and when
reference and both coordinates are all absent; in particular
`resolveCellRef(None, None, None)` and `resolveCellRef("B5", 5, 2)` both
fail with it. -/
theorem C8_cellref_exclusive_arguments :
    (∀ (s : List Char) (r c : PyArg), r ≠ .none → c ≠ .none →
      validate_cellref (some s) r c = .error .invalidCellRefError) ∧
    validate_cellref Option.none .none .none = .error .invalidCellRefError ∧
    validate_cellref (some ['B', '5']) (.int 5) (.int 2) = .error .invalidCellRefError := by
  refine ⟨?_, rfl, rfl⟩
  intro s r c hr hc
  simp [validate_cellref, hr, hc]

/-- Witness for C8's universally quantified part. -/
theorem C8_cellref_exclusive_arguments_witness :
    validate_cellref (some ['C', '7']) (.int 1) (.str ['A']) = .error .invalidCellRefError :=
  C8_cellref_exclusive_arguments.1 ['C', '7'] (.int 1) (.str ['A']) (by decide) (by decide)

/-- C9 (code bug evaluation): the epoch and the bare-date case are as
claimed (`excel_date(date(1900, 1, 1)) = 2`), but the claimed
`(value - epoch).days + (value - epoch).seconds / 86400` formula with
time-of-day is not what the program computes: because
`datetime.datetime` subclasses `datetime.date`, the
`isinstance(date1, dt.date)` branch combines *every* scalar input with
midnight, so midday on the day after the epoch yields `1`, not the
claimed `1.5`, and every datetime collapses to its calendar day
(`delta.seconds` is always 0 on the scalar path). -/
theorem C9_excel_date_midnight_truncation :
    excel_date (.date 1900 1 1) = 2 ∧
    excel_date (.datetime ⟨1899, 12, 31, 12, 0, 0⟩) = 1 ∧
    (1 : ℚ) ≠ 3 / 2 ∧
    (∀ v : PyDatetime, excel_date (.datetime v) = excel_date (.date v.year v.month v.day)) := by
  have h2 : datetimeSub ⟨1900, 1, 1, 0, 0, 0⟩ excelEpoch = (2, 0) := by decide
  have h1 : datetimeSub ⟨1899, 12, 31, 0, 0, 0⟩ excelEpoch = (1, 0) := by decide
  refine ⟨?_, ?_, by norm_num, fun v => rfl⟩
  · simp only [excel_date, excel_date_datetime, h2]
    norm_num
  · simp only [excel_date, excel_date_datetime, h1]
    norm_num

/-- C10: calling `_validate_range` with no range text and every discrete
coordinate absent reaches `startcol > endcol` with both sides `None` and
raises `TypeError`, not the documented `InvalidRangeError`. -/
theorem C10_all_none_range_type_error :
    validate_range Option.none .none .none .none .none = .error .typeError ∧
    PyErr.typeError ≠ PyErr.invalidRangeError :=
  ⟨rfl, by decide⟩

end Exceltools

